import Mathlib

/-!
Shallow embedding of the interactive behavior module of the Free-Flow
Plumbing website (`src/plumbing_website/js/main.js`) and proofs about its
five feature initializers: mobile menu toggle, FAQ accordion, smooth
anchor scrolling, scroll-position reset, and header scroll shadow.

DOM class lists are modelled as booleans (presence of the `active`
marker), attributes as `Option String` (`none` when the attribute is
absent, `some v` after `setAttribute`), and the unguarded
`querySelector(...).setAttribute(...)` in the FAQ handler as an
`Option`-valued computation (`none` models the thrown `TypeError`).
-/

namespace FreeFlow

/-- JS string coercion of a boolean, as produced by
`setAttribute('aria-expanded', b)` with a boolean argument. -/
def boolToAttr (b : Bool) : String := if b then "true" else "false"

/-- State of the mobile navigation feature: the `active` class on the
toggle control, the `active` class on the `nav` container, and the
toggle's `aria-expanded` attribute (absent at startup unless the HTML
set it). -/
structure MenuState where
  toggleActive : Bool
  navActive : Bool
  ariaExpanded : Option String
deriving Repr, DecidableEq

/-- The closed-menu state produced by every closing branch of
`initMobileMenu`: both `active` markers removed and
`aria-expanded` set to `"false"`. -/
def closedMenu : MenuState :=
  { toggleActive := false, navActive := false, ariaExpanded := some "false" }

/-- Click handler on the hamburger toggle (`main.js` lines 26-33):
toggle both `active` classes, then set `aria-expanded` to the string
form of the nav's new `active` state. -/
def menuToggleClick (s : MenuState) : MenuState :=
  let toggleActive := !s.toggleActive
  let navActive := !s.navActive
  { toggleActive := toggleActive, navActive := navActive,
    ariaExpanded := some (boolToAttr navActive) }

/-- Click handler on any navigation link (`main.js` lines 36-42):
unconditionally remove both `active` classes and set `aria-expanded`
to `"false"`. -/
def navLinkClick (_ : MenuState) : MenuState := closedMenu

/-- Document-level click handler (`main.js` lines 45-54): close the menu
when the click target is inside neither the nav nor the toggle and the
nav is currently `active`; otherwise do nothing. -/
def documentClick (insideNav onToggle : Bool) (s : MenuState) : MenuState :=
  if !insideNav && !onToggle && s.navActive then closedMenu else s

/-- Document-level keydown handler (`main.js` lines 57-63): close the
menu when the key is `Escape` and the nav is currently `active`. -/
def documentKeydown (key : String) (s : MenuState) : MenuState :=
  if key = "Escape" && s.navActive then closedMenu else s

/-- `n` successive clicks on the hamburger toggle with no other events
interleaved. -/
def toggleClicks : Nat → MenuState → MenuState
  | 0, s => s
  | n + 1, s => menuToggleClick (toggleClicks n s)

/-- Any event handled by the mobile-menu feature. -/
inductive MenuEvent where
  | toggleClick : MenuEvent
  | linkClick : MenuEvent
  | outsideClick (insideNav onToggle : Bool) : MenuEvent
  | keydown (key : String) : MenuEvent
deriving Repr, DecidableEq

/-- Dispatch of one event to the corresponding handler of
`initMobileMenu`. -/
def menuStep : MenuEvent → MenuState → MenuState
  | MenuEvent.toggleClick, s => menuToggleClick s
  | MenuEvent.linkClick, s => navLinkClick s
  | MenuEvent.outsideClick insideNav onToggle, s => documentClick insideNav onToggle s
  | MenuEvent.keydown key, s => documentKeydown key s

/-- A sequence of mobile-menu events processed in order. -/
def menuRun : List MenuEvent → MenuState → MenuState
  | [], s => s
  | e :: es, s => menuRun es (menuStep e s)

/-- Consistency of the mobile-menu state: both `active` markers agree
and `aria-expanded` holds the string form of that shared state. -/
abbrev MenuInv (s : MenuState) : Prop :=
  s.toggleActive = s.navActive ∧ s.ariaExpanded = some (boolToAttr s.navActive)

theorem toggleClicks_navActive (s : MenuState) (h : s.navActive = false) :
    ∀ n, (toggleClicks n s).navActive = decide (n % 2 = 1) := by
  intro n
  induction n with
  | zero => simpa [toggleClicks]
  | succ k ih =>
    have hstep : (toggleClicks (k + 1) s).navActive = !(toggleClicks k s).navActive := rfl
    rw [hstep, ih, ← decide_not]
    exact decide_eq_decide.mpr (by omega)

theorem toggleClicks_agree (s : MenuState) (h : s.toggleActive = s.navActive) :
    ∀ n, (toggleClicks n s).toggleActive = (toggleClicks n s).navActive := by
  intro n
  induction n with
  | zero => simpa [toggleClicks]
  | succ k ih =>
    simp only [toggleClicks, menuToggleClick, ih]

/-- C2: starting from the closed state, after `n` toggle clicks the
menu's open state (`navActive`) equals the parity of `n`, the `active`
marker is present on the toggle exactly when it is present on the nav
container, and after every click (`n ≥ 1`) `aria-expanded` is the string
form of the new open state. -/
theorem menu_toggle_parity (s : MenuState) (n : Nat)
    (ht : s.toggleActive = false) (hn : s.navActive = false) :
    ((toggleClicks n s).navActive = decide (n % 2 = 1)) ∧
    ((toggleClicks n s).toggleActive = (toggleClicks n s).navActive) ∧
    (1 ≤ n →
      (toggleClicks n s).ariaExpanded = some (boolToAttr (toggleClicks n s).navActive)) := by
  refine ⟨toggleClicks_navActive s hn n, toggleClicks_agree s (by rw [ht, hn]) n, ?_⟩
  intro h1
  cases n with
  | zero => omega
  | succ k => rfl

/-- Witness for `menu_toggle_parity` at three clicks from the pristine
closed state. -/
theorem menu_toggle_parity_example :
    ((toggleClicks 3 ⟨false, false, none⟩).navActive = decide (3 % 2 = 1)) ∧
    ((toggleClicks 3 ⟨false, false, none⟩).toggleActive
      = (toggleClicks 3 ⟨false, false, none⟩).navActive) ∧
    (1 ≤ 3 →
      (toggleClicks 3 ⟨false, false, none⟩).ariaExpanded
        = some (boolToAttr (toggleClicks 3 ⟨false, false, none⟩).navActive)) :=
  menu_toggle_parity ⟨false, false, none⟩ 3 rfl rfl

/-- C3: clicking a navigation link closes the menu unconditionally; a
click outside both the nav and the toggle closes the menu when it is
open and leaves the whole state unchanged when it is closed; `Escape`
closes the menu when it is open; every closing branch removes both
`active` markers and sets `aria-expanded` to `"false"`. -/
theorem menu_close_behaviors (s : MenuState) (insideNav onToggle : Bool) :
    (navLinkClick s = closedMenu) ∧
    (insideNav = false → onToggle = false → s.navActive = true →
      documentClick insideNav onToggle s = closedMenu) ∧
    (s.navActive = false → documentClick insideNav onToggle s = s) ∧
    (s.navActive = true → documentKeydown "Escape" s = closedMenu) := by
  refine ⟨rfl, ?_, ?_, ?_⟩
  · intro h1 h2 h3
    simp [documentClick, h1, h2, h3]
  · intro h
    simp [documentClick, h]
  · intro h
    simp [documentKeydown, h]

/-- Witness for `menu_close_behaviors` at concrete open and closed
states. -/
theorem menu_close_behaviors_example :
    (navLinkClick ⟨true, true, some "true"⟩ = closedMenu) ∧
    (documentClick false false ⟨true, true, some "true"⟩ = closedMenu) ∧
    (documentClick false false ⟨false, false, none⟩ = (⟨false, false, none⟩ : MenuState)) ∧
    (documentKeydown "Escape" ⟨true, true, some "true"⟩ = closedMenu) :=
  ⟨(menu_close_behaviors ⟨true, true, some "true"⟩ false false).1,
   (menu_close_behaviors ⟨true, true, some "true"⟩ false false).2.1 rfl rfl rfl,
   (menu_close_behaviors ⟨false, false, none⟩ false false).2.2.1 rfl,
   (menu_close_behaviors ⟨true, true, some "true"⟩ false false).2.2.2 rfl⟩

theorem menuStep_inv (s : MenuState) (e : MenuEvent) (h : MenuInv s) :
    MenuInv (menuStep e s) := by
  obtain ⟨h1, h2⟩ := h
  cases e with
  | toggleClick =>
    exact ⟨by simp [menuStep, menuToggleClick, h1], rfl⟩
  | linkClick =>
    exact ⟨rfl, rfl⟩
  | outsideClick insideNav onToggle =>
    simp only [menuStep, documentClick]
    by_cases hc : (!insideNav && !onToggle && s.navActive) = true
    · rw [if_pos hc]; exact ⟨rfl, rfl⟩
    · rw [if_neg hc]; exact ⟨h1, h2⟩
  | keydown key =>
    simp only [menuStep, documentKeydown]
    by_cases hc : (key = "Escape" && s.navActive : Bool) = true
    · rw [if_pos hc]; exact ⟨rfl, rfl⟩
    · rw [if_neg hc]; exact ⟨h1, h2⟩

/-- C10 (amended): if at startup both `active` markers are absent and the
toggle's `aria-expanded` attribute holds `"false"` (the string form of
that shared state), then after every single mobile-menu handler and
after every sequence of mobile-menu events the two markers are equal and
`aria-expanded` holds the string form of the shared state. -/
theorem menu_markers_aria_invariant (s : MenuState) (es : List MenuEvent)
    (h : MenuInv s) :
    (∀ e, MenuInv (menuStep e s)) ∧ MenuInv (menuRun es s) := by
  refine ⟨fun e => menuStep_inv s e h, ?_⟩
  induction es generalizing s with
  | nil => exact h
  | cons e es ih => exact ih (menuStep e s) (menuStep_inv s e h)

/-- Witness for `menu_markers_aria_invariant` on a concrete event
sequence from the pristine closed state. -/
theorem menu_markers_aria_invariant_example :
    (∀ e, MenuInv (menuStep e ⟨false, false, some "false"⟩)) ∧
    MenuInv (menuRun
      [MenuEvent.toggleClick, MenuEvent.outsideClick false false,
       MenuEvent.keydown "Escape", MenuEvent.toggleClick, MenuEvent.linkClick]
      ⟨false, false, some "false"⟩) :=
  menu_markers_aria_invariant ⟨false, false, some "false"⟩
    [MenuEvent.toggleClick, MenuEvent.outsideClick false false,
     MenuEvent.keydown "Escape", MenuEvent.toggleClick, MenuEvent.linkClick]
    (by constructor <;> rfl)

/-- C10 counterexample: with both `active` markers absent at startup but
the `aria-expanded` attribute absent as well, the no-op outside click
while the menu is closed completes with `aria-expanded` still absent, so
it does not equal the string form of the shared (false) marker state. -/
theorem menu_markers_aria_counterexample :
    ((⟨false, false, none⟩ : MenuState).toggleActive
      = (⟨false, false, none⟩ : MenuState).navActive) ∧
    ¬ ((menuStep (MenuEvent.outsideClick false false) ⟨false, false, none⟩).ariaExpanded
        = some (boolToAttr
            (menuStep (MenuEvent.outsideClick false false) ⟨false, false, none⟩).navActive)) := by
  refine ⟨rfl, ?_⟩
  intro hcontra
  simp [menuStep, documentClick, boolToAttr] at hcontra

/-!
## FAQ accordion (`initFAQ`, `main.js` lines 70-101)

An FAQ item container is modelled by the presence of its `active` class
(`expanded`), whether a `.faq-question` child exists inside it
(`hasQuestion` — the close-others pass dereferences
`item.querySelector('.faq-question')` without a null guard), and the
question's `aria-expanded` attribute.
-/

/-- One `.faq-item` container together with its `.faq-question` child. -/
structure FAQItem where
  expanded : Bool
  hasQuestion : Bool
  aria : Option String
deriving Repr, DecidableEq

/-- Effect of `main.js` lines 83-84 on one non-clicked item: remove the
`active` class and set the question's `aria-expanded` to `"false"`. -/
def closeItem (it : FAQItem) : FAQItem :=
  { it with expanded := false, aria := some "false" }

/-- Effect of `main.js` lines 89-90 on the clicked item: toggle the
`active` class and set the question's `aria-expanded` to the string form
of the negated pre-click state. -/
def toggleItem (clicked : FAQItem) : FAQItem :=
  { clicked with expanded := !clicked.expanded,
                 aria := some (boolToAttr (!clicked.expanded)) }

/-- The close-others pass of the click handler (`main.js` lines 81-86):
walk every `.faq-item`; skip the item at index `i` (the clicked
question's parent); on every other item, remove `active` and set the
question's `aria-expanded` to `"false"` — returning `none` when that
item has no `.faq-question` child, modelling the `TypeError` thrown by
`null.setAttribute`. `j` is the index of the first list element. -/
def closeOthersFrom (i : Nat) : Nat → List FAQItem → Option (List FAQItem)
  | _, [] => some []
  | j, it :: rest =>
    if j = i then
      (closeOthersFrom i (j + 1) rest).map (fun r => it :: r)
    else if it.hasQuestion then
      (closeOthersFrom i (j + 1) rest).map (fun r => closeItem it :: r)
    else
      none

/-- The FAQ click handler (`main.js` lines 76-91) for a click on the
question of the item at index `i`: read the clicked item's current
`active` state, run the close-others pass over all items, then toggle
the clicked item's `active` class and set its question's `aria-expanded`
to the string form of the negated initial state. -/
def faqClick (items : List FAQItem) (i : Nat) : Option (List FAQItem) :=
  match items.get? i with
  | none => none
  | some clicked =>
    (closeOthersFrom i 0 items).map
      (fun closed => closed.set i (toggleItem clicked))

/-- The FAQ keydown handler (`main.js` lines 94-99) for a keydown on the
question of the item at index `i`: on `Enter` or space, prevent the
default action and dispatch a click on the same question; on any other
key, do nothing. Returns the default-prevented flag paired with the
resulting item states. -/
def faqKeydown (items : List FAQItem) (i : Nat) (key : String) :
    Bool × Option (List FAQItem) :=
  if key = "Enter" || key = " " then (true, faqClick items i)
  else (false, some items)

theorem closeOthersFrom_length (i : Nat) :
    ∀ (items : List FAQItem) (j : Nat) (out : List FAQItem),
      closeOthersFrom i j items = some out → out.length = items.length := by
  intro items
  induction items with
  | nil =>
    intro j out h
    simp only [closeOthersFrom, Option.some.injEq] at h
    subst h; rfl
  | cons it rest ih =>
    intro j out h
    simp only [closeOthersFrom] at h
    by_cases hj : j = i
    · rw [if_pos hj] at h
      obtain ⟨r, hr, hout⟩ := Option.map_eq_some'.mp h
      subst hout
      simp [ih (j + 1) r hr]
    · rw [if_neg hj] at h
      by_cases hqu : it.hasQuestion = true
      · rw [if_pos hqu] at h
        obtain ⟨r, hr, hout⟩ := Option.map_eq_some'.mp h
        subst hout
        simp [ih (j + 1) r hr]
      · rw [if_neg hqu] at h
        exact absurd h (by simp)

theorem closeOthersFrom_get? (i : Nat) :
    ∀ (items : List FAQItem) (j : Nat) (out : List FAQItem),
      closeOthersFrom i j items = some out →
      ∀ k, out.get? k = (items.get? k).map
        (fun it => if j + k = i then it else closeItem it) := by
  intro items
  induction items with
  | nil =>
    intro j out h k
    simp only [closeOthersFrom, Option.some.injEq] at h
    subst h
    simp
  | cons it rest ih =>
    intro j out h k
    simp only [closeOthersFrom] at h
    by_cases hj : j = i
    · rw [if_pos hj] at h
      obtain ⟨r, hr, hout⟩ := Option.map_eq_some'.mp h
      subst hout
      cases k with
      | zero => simp [hj]
      | succ m =>
        have hrec := ih (j + 1) r hr m
        have hidx : j + 1 + m = j + (m + 1) := by omega
        simp only [List.get?_cons_succ, hrec, hidx]
    · rw [if_neg hj] at h
      by_cases hqu : it.hasQuestion = true
      · rw [if_pos hqu] at h
        obtain ⟨r, hr, hout⟩ := Option.map_eq_some'.mp h
        subst hout
        cases k with
        | zero => simp [hj]
        | succ m =>
          have hrec := ih (j + 1) r hr m
          have hidx : j + 1 + m = j + (m + 1) := by omega
          simp only [List.get?_cons_succ, hrec, hidx]
      · rw [if_neg hqu] at h
        exact absurd h (by simp)

theorem closeOthersFrom_isSome (i : Nat) :
    ∀ (items : List FAQItem) (j : Nat),
      (∀ it ∈ items, it.hasQuestion = true) →
      ∃ out, closeOthersFrom i j items = some out := by
  intro items
  induction items with
  | nil => exact fun j _ => ⟨[], rfl⟩
  | cons it rest ih =>
    intro j hq
    obtain ⟨r, hr⟩ := ih (j + 1) (fun x hx => hq x (List.mem_cons_of_mem it hx))
    by_cases hj : j = i
    · subst hj
      exact ⟨it :: r, by simp [closeOthersFrom, hr]⟩
    · refine ⟨closeItem it :: r, ?_⟩
      simp [closeOthersFrom, hj, hr, hq it (List.mem_cons_self it rest)]

/-- C1: for a click on the question of the item at index `i` of a set of
item containers that each hold a question element, the handler succeeds,
sets every other item's `expanded` to false with `aria-expanded`
`"false"`, flips the clicked item's `expanded` state setting its
`aria-expanded` to the string form of the new boolean, and afterwards at
most one item is expanded: the clicked one when it was collapsed before
the click, none when it was already expanded. -/
theorem faq_click_single_open (items : List FAQItem) (i : Nat) (clicked : FAQItem)
    (hget : items.get? i = some clicked)
    (hq : ∀ it ∈ items, it.hasQuestion = true) :
    ∃ out, faqClick items i = some out ∧
      out.length = items.length ∧
      (∀ k it, k ≠ i → out.get? k = some it →
        it.expanded = false ∧ it.aria = some "false") ∧
      (∃ it, out.get? i = some it ∧ it.expanded = (!clicked.expanded) ∧
        it.aria = some (boolToAttr (!clicked.expanded)) ∧
        it.hasQuestion = clicked.hasQuestion) ∧
      (∀ k1 k2 it1 it2, out.get? k1 = some it1 → it1.expanded = true →
        out.get? k2 = some it2 → it2.expanded = true → k1 = k2) ∧
      (clicked.expanded = true → ∀ k it, out.get? k = some it → it.expanded = false) ∧
      (clicked.expanded = false → ∃ it, out.get? i = some it ∧ it.expanded = true) := by
  obtain ⟨closed, hclosed⟩ := closeOthersFrom_isSome i items 0 hq
  have hlen : closed.length = items.length :=
    closeOthersFrom_length i items 0 closed hclosed
  have hi : i < items.length := (List.get?_eq_some.mp hget).1
  have hic : i < closed.length := by rw [hlen]; exact hi
  have hout_i : (closed.set i (toggleItem clicked)).get? i = some (toggleItem clicked) :=
    List.get?_set_eq_of_lt (toggleItem clicked) hic
  have hothers : ∀ k it, k ≠ i →
      (closed.set i (toggleItem clicked)).get? k = some it →
      it.expanded = false ∧ it.aria = some "false" := by
    intro k it hk hsome
    rw [List.get?_set_ne (toggleItem clicked) closed (fun h => hk h.symm)] at hsome
    rw [closeOthersFrom_get? i items 0 closed hclosed k] at hsome
    simp only [Nat.zero_add, if_neg hk] at hsome
    obtain ⟨orig, _, hit⟩ := Option.map_eq_some'.mp hsome
    subst hit
    exact ⟨rfl, rfl⟩
  refine ⟨closed.set i (toggleItem clicked), ?_, ?_, hothers,
    ⟨toggleItem clicked, hout_i, rfl, rfl, rfl⟩, ?_, ?_, ?_⟩
  · unfold faqClick
    rw [hget, hclosed]
    rfl
  · rw [List.length_set]
    exact hlen
  · intro k1 k2 it1 it2 h1 he1 h2 he2
    have hk1 : k1 = i := by
      by_contra hk
      have hc := hothers k1 it1 hk h1
      rw [hc.1] at he1
      exact Bool.false_ne_true he1
    have hk2 : k2 = i := by
      by_contra hk
      have hc := hothers k2 it2 hk h2
      rw [hc.1] at he2
      exact Bool.false_ne_true he2
    rw [hk1, hk2]
  · intro hcl k it hsome
    by_cases hk : k = i
    · subst hk
      rw [hout_i] at hsome
      obtain rfl : toggleItem clicked = it := Option.some.inj hsome
      simp [toggleItem, hcl]
    · exact (hothers k it hk hsome).1
  · intro hcl
    exact ⟨toggleItem clicked, hout_i, by simp [toggleItem, hcl]⟩

/-- Witness for `faq_click_single_open`: clicking the collapsed first
question of a two-item accordion whose second item is expanded. -/
theorem faq_click_single_open_example :
    ∃ out, faqClick [⟨false, true, none⟩, ⟨true, true, some "true"⟩] 0 = some out ∧
      out.length = ([⟨false, true, none⟩, ⟨true, true, some "true"⟩] : List FAQItem).length ∧
      (∀ k it, k ≠ 0 → out.get? k = some it →
        it.expanded = false ∧ it.aria = some "false") ∧
      (∃ it, out.get? 0 = some it ∧ it.expanded = (!(false : Bool)) ∧
        it.aria = some (boolToAttr (!(false : Bool))) ∧
        it.hasQuestion = (⟨false, true, none⟩ : FAQItem).hasQuestion) ∧
      (∀ k1 k2 it1 it2, out.get? k1 = some it1 → it1.expanded = true →
        out.get? k2 = some it2 → it2.expanded = true → k1 = k2) ∧
      ((false : Bool) = true → ∀ k it, out.get? k = some it → it.expanded = false) ∧
      ((false : Bool) = false → ∃ it, out.get? 0 = some it ∧ it.expanded = true) :=
  faq_click_single_open [⟨false, true, none⟩, ⟨true, true, some "true"⟩] 0
    ⟨false, true, none⟩ rfl (by decide)

/-- C4: a keydown with key `Enter` or key space on the question of the
item at index `i` suppresses the default action and produces exactly the
item states a pointer click on the same question produces from the same
starting state. -/
theorem faq_keydown_click_equiv (items : List FAQItem) (i : Nat) (key : String)
    (h : key = "Enter" ∨ key = " ") :
    faqKeydown items i key = (true, faqClick items i) := by
  rcases h with h | h <;> subst h <;> simp [faqKeydown]

/-- Witness for `faq_keydown_click_equiv` at both activation keys on a
concrete accordion. -/
theorem faq_keydown_click_equiv_example :
    faqKeydown [⟨false, true, none⟩, ⟨true, true, some "true"⟩] 1 "Enter"
      = (true, faqClick [⟨false, true, none⟩, ⟨true, true, some "true"⟩] 1) ∧
    faqKeydown [⟨false, true, none⟩, ⟨true, true, some "true"⟩] 1 " "
      = (true, faqClick [⟨false, true, none⟩, ⟨true, true, some "true"⟩] 1) :=
  ⟨faq_keydown_click_equiv [⟨false, true, none⟩, ⟨true, true, some "true"⟩] 1 "Enter"
      (Or.inl rfl),
   faq_keydown_click_equiv [⟨false, true, none⟩, ⟨true, true, some "true"⟩] 1 " "
      (Or.inr rfl)⟩

/-- C5 counterexample: in a document holding one well-formed FAQ item
and one `.faq-item` container without a `.faq-question` child, the click
handler on the first item's question fails: the close-others pass
dereferences the missing question (`null.setAttribute` throws a
`TypeError`), modelled by the handler returning `none`. -/
theorem faq_click_can_fail :
    faqClick [⟨false, true, none⟩, ⟨false, false, none⟩] 0 = none := by
  rfl

/-- C5 (amended): the FAQ click handler runs to completion on every
accordion state in which every `.faq-item` container holds a
`.faq-question` child; without that structural condition the unguarded
lookup in the close-others pass can fail. -/
theorem faq_click_total_of_wellformed (items : List FAQItem) (i : Nat)
    (hi : i < items.length)
    (hq : ∀ it ∈ items, it.hasQuestion = true) :
    (faqClick items i).isSome = true := by
  obtain ⟨closed, hclosed⟩ := closeOthersFrom_isSome i items 0 hq
  have hget : ∃ clicked, items.get? i = some clicked := by
    cases hg : items.get? i with
    | none =>
      rw [List.get?_eq_none] at hg
      omega
    | some clicked => exact ⟨clicked, rfl⟩
  obtain ⟨clicked, hget⟩ := hget
  unfold faqClick
  rw [hget, hclosed]
  rfl

/-- Witness for `faq_click_total_of_wellformed` on a concrete
well-formed accordion. -/
theorem faq_click_total_of_wellformed_example :
    (faqClick [⟨false, true, none⟩, ⟨true, true, some "true"⟩] 1).isSome = true :=
  faq_click_total_of_wellformed [⟨false, true, none⟩, ⟨true, true, some "true"⟩] 1
    (by decide) (by decide)

/-!
## Smooth anchor scrolling (`initSmoothScroll`, `main.js` lines 107-145)
-/

/-- A page element addressable by a fragment identifier: its vertical
top offset and its `tabindex` attribute. -/
structure PageElement where
  offsetTop : Int
  tabindex : Option String
deriving Repr, DecidableEq

/-- `document.querySelector('#fragment')`: the first element whose
identifier matches the fragment. -/
def lookupId : List (String × PageElement) → String → Option PageElement
  | [], _ => none
  | (eid, e) :: rest, fragment =>
    if eid = fragment then some e else lookupId rest fragment

/-- `setAttribute('tabindex', v)` on the first element whose identifier
matches the fragment. -/
def setTabindex : List (String × PageElement) → String → String → List (String × PageElement)
  | [], _, _ => []
  | (eid, e) :: rest, fragment, v =>
    if eid = fragment then (eid, { e with tabindex := some v }) :: rest
    else (eid, e) :: setTabindex rest fragment v

/-- Browsing state read and written by the smooth-scroll click handler:
viewport scroll position, the behavior of the last programmatic scroll,
the stack of fragments pushed into history, the identifiable page
elements, the sticky header's height (`none` when no header exists),
whether `history.pushState` exists, and the focused element. -/
structure PageState where
  scrollY : Int
  scrollBehavior : Option String
  historyStack : List String
  elements : List (String × PageElement)
  headerHeight : Option Int
  pushStateSupported : Bool
  focusedId : Option String
deriving Repr, DecidableEq

/-- Click handler of `initSmoothScroll` (`main.js` lines 113-143) for a
link whose `href` attribute is `href`: return on `'#'` or the empty
string; otherwise look up the target element and, when it exists,
prevent the default jump, scroll smoothly to
`offsetTop - headerHeight - 20` (header height `0` without a header),
push the fragment into history when `history.pushState` exists, make the
target focusable with `tabindex="-1"` and focus it. The boolean returned
with the new state records whether the default action was prevented. -/
def anchorClick (st : PageState) (href : String) : PageState × Bool :=
  if href = "#" ∨ href = "" then (st, false)
  else
    match lookupId st.elements (href.drop 1) with
    | none => (st, false)
    | some target =>
      let headerHeight := st.headerHeight.getD 0
      let targetPosition := target.offsetTop - headerHeight - 20
      let st1 := { st with scrollY := targetPosition,
                           scrollBehavior := some "smooth" }
      let st2 := if st.pushStateSupported
                 then { st1 with historyStack := href :: st1.historyStack }
                 else st1
      let st3 := { st2 with elements := setTabindex st2.elements (href.drop 1) "-1",
                            focusedId := some (href.drop 1) }
      (st3, true)

theorem lookupId_setTabindex (v : String) (elems : List (String × PageElement))
    (fragment : String) :
    lookupId (setTabindex elems fragment v) fragment
      = (lookupId elems fragment).map (fun e => { e with tabindex := some v }) := by
  induction elems with
  | nil => rfl
  | cons p rest ih =>
    obtain ⟨eid, e⟩ := p
    by_cases h : eid = fragment
    · simp [setTabindex, lookupId, h]
    · simp [setTabindex, lookupId, h, ih]

/-- C6: clicking a link whose `href` names a fragment with a matching
element suppresses the default jump, scrolls smoothly to exactly the
target's top offset minus the header height minus 20 (header height `0`
when no header exists), pushes the fragment into history, sets the
target's `tabindex` to `"-1"` and moves focus to it. -/
theorem smooth_scroll_anchor (st : PageState) (href : String) (target : PageElement)
    (h1 : ¬ href = "#") (h2 : ¬ href = "")
    (h3 : lookupId st.elements (href.drop 1) = some target)
    (h4 : st.pushStateSupported = true) :
    ((anchorClick st href).2 = true) ∧
    ((anchorClick st href).1.scrollY
      = target.offsetTop - st.headerHeight.getD 0 - 20) ∧
    (st.headerHeight = none →
      (anchorClick st href).1.scrollY = target.offsetTop - 20) ∧
    ((anchorClick st href).1.scrollBehavior = some "smooth") ∧
    ((anchorClick st href).1.historyStack = href :: st.historyStack) ∧
    (lookupId (anchorClick st href).1.elements (href.drop 1)
      = some { target with tabindex := some "-1" }) ∧
    ((anchorClick st href).1.focusedId = some (href.drop 1)) := by
  unfold anchorClick
  rw [if_neg (fun hc => hc.elim h1 h2), h3, h4]
  refine ⟨rfl, rfl, ?_, rfl, rfl, ?_, rfl⟩
  · intro hh
    rw [hh]
    simp
  · show lookupId (setTabindex st.elements (href.drop 1) "-1") (href.drop 1)
        = some { target with tabindex := some "-1" }
    rw [lookupId_setTabindex "-1" st.elements (href.drop 1), h3]
    rfl

/-- Witness for `smooth_scroll_anchor`: a page with a header of height
80 and one element `section2` at offset 400, clicked via
`href="#section2"`. -/
theorem smooth_scroll_anchor_example :
    ((anchorClick ⟨0, none, [], [("section2", ⟨400, none⟩)], some 80, true, none⟩
        "#section2").2 = true) ∧
    ((anchorClick ⟨0, none, [], [("section2", ⟨400, none⟩)], some 80, true, none⟩
        "#section2").1.scrollY
      = (⟨400, none⟩ : PageElement).offsetTop
        - (some (80 : Int)).getD 0 - 20) ∧
    ((some (80 : Int) = none) →
      (anchorClick ⟨0, none, [], [("section2", ⟨400, none⟩)], some 80, true, none⟩
        "#section2").1.scrollY = (⟨400, none⟩ : PageElement).offsetTop - 20) ∧
    ((anchorClick ⟨0, none, [], [("section2", ⟨400, none⟩)], some 80, true, none⟩
        "#section2").1.scrollBehavior = some "smooth") ∧
    ((anchorClick ⟨0, none, [], [("section2", ⟨400, none⟩)], some 80, true, none⟩
        "#section2").1.historyStack = "#section2" :: []) ∧
    (lookupId (anchorClick ⟨0, none, [], [("section2", ⟨400, none⟩)], some 80, true, none⟩
        "#section2").1.elements ("#section2".drop 1)
      = some { (⟨400, none⟩ : PageElement) with tabindex := some "-1" }) ∧
    ((anchorClick ⟨0, none, [], [("section2", ⟨400, none⟩)], some 80, true, none⟩
        "#section2").1.focusedId = some ("#section2".drop 1)) :=
  smooth_scroll_anchor ⟨0, none, [], [("section2", ⟨400, none⟩)], some 80, true, none⟩
    "#section2" ⟨400, none⟩ (by decide) (by decide) (by decide) rfl

/-- C7: clicking an anchor link whose `href` is exactly `'#'`, is empty,
or names a fragment without a matching element leaves the whole browsing
state unchanged and does not prevent the default action. -/
theorem anchor_click_noop (st : PageState) (href : String)
    (h : href = "#" ∨ href = "" ∨ lookupId st.elements (href.drop 1) = none) :
    anchorClick st href = (st, false) := by
  unfold anchorClick
  rcases h with h | h | h
  · rw [if_pos (Or.inl h)]
  · rw [if_pos (Or.inr h)]
  · by_cases hc : href = "#" ∨ href = ""
    · rw [if_pos hc]
    · rw [if_neg hc, h]

/-- Witness for `anchor_click_noop` at the three no-op inputs on a
concrete page state. -/
theorem anchor_click_noop_example :
    anchorClick ⟨7, none, [], [("section2", ⟨400, none⟩)], some 80, true, none⟩ "#"
      = (⟨7, none, [], [("section2", ⟨400, none⟩)], some 80, true, none⟩, false) ∧
    anchorClick ⟨7, none, [], [("section2", ⟨400, none⟩)], some 80, true, none⟩ ""
      = (⟨7, none, [], [("section2", ⟨400, none⟩)], some 80, true, none⟩, false) ∧
    anchorClick ⟨7, none, [], [("section2", ⟨400, none⟩)], some 80, true, none⟩ "#missing"
      = (⟨7, none, [], [("section2", ⟨400, none⟩)], some 80, true, none⟩, false) :=
  ⟨anchor_click_noop _ "#" (Or.inl rfl),
   anchor_click_noop _ "" (Or.inr (Or.inl rfl)),
   anchor_click_noop _ "#missing" (Or.inr (Or.inr (by decide)))⟩

/-!
## Header scroll shadow (`initHeaderScroll`, `main.js` lines 162-180)
-/

/-- Inline shadow applied to the header above the scroll threshold
(`main.js` line 173). -/
def heavyShadow : String := "0 4px 12px rgba(0, 0, 0, 0.2)"

/-- Inline shadow applied at or below the scroll threshold
(`main.js` line 175). -/
def lightShadow : String := "0 4px 8px rgba(0, 0, 0, 0.15)"

/-- State owned by `initHeaderScroll`: the header's inline `box-shadow`
style and the closure variable `lastScrollTop` (written but never
read). -/
structure HeaderState where
  boxShadow : Option String
  lastScrollTop : Nat
deriving Repr, DecidableEq

/-- Scroll handler of `initHeaderScroll` (`main.js` lines 168-179): read
the current vertical offset, apply the heavy shadow when it is strictly
greater than 10 and the light shadow otherwise, then store the offset in
`lastScrollTop`. The previous state is ignored entirely. -/
def headerScrollEvent (scrollTop : Nat) (_s : HeaderState) : HeaderState :=
  { boxShadow := some (if scrollTop > 10 then heavyShadow else lightShadow),
    lastScrollTop := scrollTop }

/-- C8: on a scroll event the header receives the heavy shadow exactly
when the vertical offset strictly exceeds 10, the light shadow otherwise
(offset 10 included), and the outcome is independent of any state
carried from previous events. -/
theorem header_shadow_threshold (scrollTop : Nat) (s t : HeaderState) :
    (10 < scrollTop → (headerScrollEvent scrollTop s).boxShadow = some heavyShadow) ∧
    (scrollTop ≤ 10 → (headerScrollEvent scrollTop s).boxShadow = some lightShadow) ∧
    headerScrollEvent scrollTop s = headerScrollEvent scrollTop t := by
  refine ⟨?_, ?_, rfl⟩
  · intro h
    simp [headerScrollEvent, h]
  · intro h
    have hlt : ¬ 10 < scrollTop := by omega
    simp [headerScrollEvent, hlt]

/-- Witness for `header_shadow_threshold` at offsets 15, 10 and 5 and at
two distinct carried states. -/
theorem header_shadow_threshold_example :
    (headerScrollEvent 15 ⟨none, 0⟩).boxShadow = some heavyShadow ∧
    (headerScrollEvent 10 ⟨none, 0⟩).boxShadow = some lightShadow ∧
    (headerScrollEvent 5 ⟨none, 0⟩).boxShadow = some lightShadow ∧
    headerScrollEvent 15 ⟨none, 0⟩ = headerScrollEvent 15 ⟨some lightShadow, 3⟩ :=
  ⟨(header_shadow_threshold 15 ⟨none, 0⟩ ⟨none, 0⟩).1 (by decide),
   (header_shadow_threshold 10 ⟨none, 0⟩ ⟨none, 0⟩).2.1 (by decide),
   (header_shadow_threshold 5 ⟨none, 0⟩ ⟨none, 0⟩).2.1 (by decide),
   (header_shadow_threshold 15 ⟨none, 0⟩ ⟨some lightShadow, 3⟩).2.2⟩

/-!
## Startup (`scrollToTop` and `init`, `main.js` lines 151-156, 186-207)
-/

/-- The five feature initializers dispatched by `init`. -/
inductive InitStep where
  | scrollReset : InitStep
  | mobileMenu : InitStep
  | faq : InitStep
  | smoothScroll : InitStep
  | headerScroll : InitStep
deriving Repr, DecidableEq, BEq

/-- Startup sequence of `init` (`main.js` lines 186-204): when the
document is still loading the initializer list runs on the one-shot
`DOMContentLoaded` event, otherwise it runs immediately; both paths
dispatch the same list, `scrollToTop` first. -/
def initSteps (loading : Bool) : List InitStep :=
  if loading then
    [InitStep.scrollReset, InitStep.mobileMenu, InitStep.faq,
     InitStep.smoothScroll, InitStep.headerScroll]
  else
    [InitStep.scrollReset, InitStep.mobileMenu, InitStep.faq,
     InitStep.smoothScroll, InitStep.headerScroll]

/-- Environment touched by `scrollToTop`: whether the
`scrollRestoration` control exists in `history`, its value, and the
viewport origin. -/
structure LoadEnv where
  scrollRestorationSupported : Bool
  scrollRestoration : String
  viewport : Int × Int
deriving Repr, DecidableEq

/-- `scrollToTop` (`main.js` lines 151-156): set
`history.scrollRestoration` to `'manual'` when that control exists, then
scroll the viewport to the top-left origin. -/
def scrollToTop (env : LoadEnv) : LoadEnv :=
  let env1 := if env.scrollRestorationSupported
              then { env with scrollRestoration := "manual" }
              else env
  { env1 with viewport := (0, 0) }

/-- C9: in both startup paths (document still loading and already
loaded) the scroll-reset step is dispatched first and exactly once, it
forces the viewport to the origin, it disables automatic scroll
restoration when that control exists and leaves the control untouched
otherwise. -/
theorem scroll_reset_first_once (loading : Bool) (env : LoadEnv) :
    (initSteps loading).head? = some InitStep.scrollReset ∧
    (initSteps loading).count InitStep.scrollReset = 1 ∧
    (scrollToTop env).viewport = (0, 0) ∧
    (env.scrollRestorationSupported = true →
      (scrollToTop env).scrollRestoration = "manual") ∧
    (env.scrollRestorationSupported = false →
      (scrollToTop env).scrollRestoration = env.scrollRestoration) := by
  refine ⟨?_, ?_, rfl, ?_, ?_⟩
  · cases loading <;> rfl
  · cases loading <;> rfl
  · intro h
    simp [scrollToTop, h]
  · intro h
    simp [scrollToTop, h]

/-- Witness for `scroll_reset_first_once` in both startup paths and in
environments with and without the `scrollRestoration` control. -/
theorem scroll_reset_first_once_example :
    (initSteps true).head? = some InitStep.scrollReset ∧
    (initSteps false).count InitStep.scrollReset = 1 ∧
    (scrollToTop ⟨true, "auto", (3, 4)⟩).viewport = (0, 0) ∧
    (scrollToTop ⟨true, "auto", (3, 4)⟩).scrollRestoration = "manual" ∧
    (scrollToTop ⟨false, "auto", (3, 4)⟩).scrollRestoration
      = (⟨false, "auto", (3, 4)⟩ : LoadEnv).scrollRestoration :=
  ⟨(scroll_reset_first_once true ⟨true, "auto", (3, 4)⟩).1,
   (scroll_reset_first_once false ⟨true, "auto", (3, 4)⟩).2.1,
   (scroll_reset_first_once true ⟨true, "auto", (3, 4)⟩).2.2.1,
   (scroll_reset_first_once true ⟨true, "auto", (3, 4)⟩).2.2.2.1 rfl,
   (scroll_reset_first_once true ⟨false, "auto", (3, 4)⟩).2.2.2.2 rfl⟩

end FreeFlow
